import Mathlib

/-
Verification development for the SharkPro V2 conversation-processing pipeline.

The definitions below are a shallow embedding of the Python source under
src/backend/src: the worker consumer (worker/consumer.py), the AI engine
(worker/ai_engine.py), the webhook handler (api/main.py), the transfer flow
(services/transfer.py), the Redis helpers (services/redis_client.py) and the
Supabase helpers (services/supabase_client.py).  Network calls are modelled by
explicit environment records and failure oracles; machine state (Redis keys,
database rows) is passed explicitly.  Missing identifiers (0 encodes a falsy
or absent id, matching Python truthiness on the extracted values).
-/

-- =========================================================================
-- services/redis_client.py : the module surface
-- =========================================================================

/-- The functions defined at module level in services/redis_client.py
(lines 24-136).  Dynamic attribute access on the module resolves only these
names; any other attribute raises AttributeError. -/
def redisClientFunctions : List String :=
  ["get_redis", "push_to_buffer", "get_buffer", "delete_buffer",
   "buffer_exists", "set_ai_responding", "is_ai_responding",
   "set_human_takeover", "is_human_takeover", "clear_human_takeover", "close"]

-- =========================================================================
-- worker/consumer.py : _process_batch entry (lines 253-275 and 578-579)
-- =========================================================================

/-- Outcome of the opening steps of consumer._process_batch. -/
inductive BatchOutcome
  | emptySkip    -- buffer empty: silent debug-level return (lines 258-260)
  | attrError    -- AttributeError escaping step 2, caught at line 578 and
                 -- logged as CRITICAL ERROR
  | takeoverSkip -- the silent skip the code intends when takeover is active
  | continueToAI -- proceed to the organization lookup and AI completion
deriving DecidableEq, Repr

/-- consumer._process_batch line 262: combined_text is the newline join of the
buffered fragments. -/
def combinedText (messages : List String) : String :=
  String.intercalate "\n" messages

/-- Steps 1-2 of consumer._process_batch (lines 253-275): collect the Redis
buffer, delete the key, return on an empty buffer, then evaluate
redis_svc.is_ai_paused(conversation_id).  The name is_ai_paused is not among
the functions services/redis_client.py defines, so the attribute lookup on the
module raises AttributeError; the enclosing try at line 578 catches it and
logs a CRITICAL ERROR.  The branch on humanTakeover models what the call
would return if the looked-up attribute existed and read the takeover flag
(the behaviour the docstring of _process_batch describes). -/
def process_batch_entry (buffered : List String) (humanTakeover : Bool) :
    BatchOutcome :=
  if buffered = [] then .emptySkip
  else if "is_ai_paused" ∈ redisClientFunctions then
    if humanTakeover then .takeoverSkip else .continueToAI
  else .attrError

-- =========================================================================
-- Inbox guards (api/main.py lines 202-236, worker/consumer.py lines 665-696)
-- =========================================================================

/-- Decision of the global inbox guard in the webhook handler. -/
inductive GuardDecision
  | allow  -- fall through to the event dispatch
  | deny   -- early 200 response, event ignored
deriving DecidableEq, Repr

/-- api/main.chatwoot_webhook lines 208-236 (GLOBAL INBOX GUARD).  accountId
and inboxId use 0 for a missing or falsy extracted value; validInboxes is the
result of supabase get_org_inbox_ids(account_id).  The guard only engages
when account_id is truthy; with a truthy inbox id it denies a non-member of a
non-empty set, with a falsy inbox id it denies whenever the set is non-empty,
and in every other case it falls through. -/
def webhookInboxGuard (accountId inboxId : Nat) (validInboxes : List Nat) :
    GuardDecision :=
  if inboxId ≠ 0 ∧ accountId ≠ 0 then
    if validInboxes ≠ [] ∧ inboxId ∉ validInboxes then .deny else .allow
  else if inboxId = 0 ∧ accountId ≠ 0 then
    if validInboxes ≠ [] then .deny else .allow
  else .allow

/-- Decision of the worker-side inbox guard. -/
inductive WorkerGuardDecision
  | proceed  -- inbox check OK, continue processing
  | reject   -- message dropped
deriving DecidableEq, Repr

/-- worker/consumer._on_message lines 665-696 (second-layer INBOX GUARD).
orgFound is the result of the organization lookup, validInboxes the result of
get_org_inbox_ids(account_id).  With a non-empty set, a missing inbox id
(inboxId = 0) or a non-member is rejected; with an empty set the message is
rejected whether or not the organization exists (the two trailing branches
both return).  Note: as written the source passes an inbox_id keyword
argument to get_organization_by_account_id, which the function definition at
services/supabase_client.py line 303 does not declare, so at runtime the
lookup call raises TypeError before these branches run and the message is
likewise never allowed; this definition embeds the branch structure of lines
669-696 with the lookup results supplied as inputs. -/
def workerInboxGuard (orgFound : Bool) (inboxId : Nat)
    (validInboxes : List Nat) : WorkerGuardDecision :=
  if validInboxes ≠ [] then
    if inboxId = 0 then .reject
    else if inboxId ∈ validInboxes then .proceed
    else .reject
  else if ¬ orgFound then .reject
  else .reject

-- =========================================================================
-- Side effects emitted by the ingestion layers
-- =========================================================================

/-- The state-mutating calls the webhook handler and the worker message
handler can make (Redis flag writes, durable row writes, broker publish,
buffer pushes, private notes, background tasks). -/
inductive Effect
  | clearHumanTakeover (conv : Nat)
  | setHumanTakeover (conv : Nat)
  | setConversationAiStatus (conv : Nat) (aiStatus : String)
  | updateLeadPipelineStatus (conv : Nat) (st : String)
  | insertSale (conv : Nat)
  | summaryTask (conv : Nat)
  | sendPrivateNote (conv : Nat)
  | publishToBroker (conv : Nat)
  | bufferPush (conv : Nat) (content : String)
  | scheduleDebounceTask (conv : Nat)
  | updateCampaignLead (phone : String)
deriving DecidableEq, Repr

-- =========================================================================
-- api/main.py : chatwoot_webhook (lines 165-448)
-- =========================================================================

/-- A parsed Chatwoot webhook body, with the fields the handler extracts.
accountId, conversationId and inboxId use 0 for a missing or falsy value,
matching the or-chains of lines 191-211.  isGroup is the group test of lines
392-396 (additional_attributes.type equals group, or the contact_inbox
source id contains the group marker). -/
structure WebhookEvent where
  event : String
  messageTypeIncoming : Bool   -- message_type in (0, incoming)
  messageTypeOutgoing : Bool   -- message_type in (1, outgoing)
  isPrivate : Bool
  accountId : Nat
  conversationId : Nat
  inboxId : Nat
  content : String
  statusValue : String         -- extracted status for status-changed events
  labels : List String
  isGroup : Bool
deriving Repr

/-- External state the webhook handler consults. -/
structure WebhookEnv where
  validInboxes : List Nat  -- get_org_inbox_ids(account_id)
  aiResponding : Bool      -- redis is_ai_responding flag
  humanTakeover : Bool     -- redis is_human_takeover flag
  orgFound : Bool          -- get_organization_by_account_id result
deriving Repr

/-- api/main.py lines 269-287: map labels (lowercased) to a pipeline status
update. -/
def pipelineLabelUpdate (labels : List String) : Option String :=
  let ll := labels.map String.toLower
  if ll.contains "venda_realizada" ∨ ll.contains "venda_concluida" then
    some "venda_confirmada"
  else if ll.contains "orcamento_enviado" ∨ ll.contains "orcamento" then
    some "orcamento_enviado"
  else if ll.contains "perdido" ∨ ll.contains "lost" then some "perdido"
  else none

/-- api/main.py lines 264-306: the conversation_updated branch (pipeline
label update, then idempotent sale insert on a sale label). -/
def conversationUpdatedBranch (e : WebhookEvent) (env : WebhookEnv) :
    String × List Effect :=
  let eff1 : List Effect :=
    if e.conversationId ≠ 0 ∧ e.accountId ≠ 0 then
      match pipelineLabelUpdate e.labels with
      | some st => [.updateLeadPipelineStatus e.conversationId st]
      | none => []
    else []
  if (e.labels.contains "venda_realizada" ∨ e.labels.contains "venda_concluida"
      ∨ e.labels.contains "VENDA_REALIZADA")
      ∧ e.conversationId ≠ 0 ∧ e.accountId ≠ 0 then
    ("sale recorded",
      eff1 ++ if env.orgFound then [.insertSale e.conversationId] else [])
  else ("conversation_updated processed", eff1)

/-- api/main.py lines 319-448: the message_created branch.  Order as in the
source: outgoing-agent handling (takeover set, with the ai_responding
self-send suppression and the first-takeover summary task), then the /auto
reactivation command, then the incoming gate, the group guard, the id check,
and finally the publish to the broker. -/
def messageCreatedBranch (e : WebhookEvent) (env : WebhookEnv) :
    String × List Effect :=
  if e.messageTypeOutgoing ∧ ¬ e.isPrivate ∧ e.conversationId ≠ 0 then
    if env.aiResponding then ("ai message ignored", [])
    else
      let base : List Effect :=
        [.setHumanTakeover e.conversationId,
         .setConversationAiStatus e.conversationId "paused"]
      if ¬ env.humanTakeover ∧ e.accountId ≠ 0 then
        ("human takeover set",
          base ++ [.summaryTask e.conversationId,
                   .updateLeadPipelineStatus e.conversationId "transferido"])
      else ("human takeover set", base)
  else if e.content.trim.toLower = "/auto" ∧ e.conversationId ≠ 0 then
    ("ai reactivated",
      [.clearHumanTakeover e.conversationId,
       .setConversationAiStatus e.conversationId "active"]
      ++ if e.accountId ≠ 0 ∧ env.orgFound then
           [.sendPrivateNote e.conversationId] else [])
  else if ¬ e.messageTypeIncoming then ("non-incoming ignored", [])
  else if e.isGroup then ("group conversation ignored", [])
  else if e.accountId = 0 ∨ e.conversationId = 0 then
    ("missing account_id or conversation_id", [])
  else ("queued", [.publishToBroker e.conversationId])

/-- api/main.py lines 238-313: event dispatch after the global inbox guard
(conversation_status_changed, conversation_updated, the non-message gate,
then message_created). -/
def webhookDispatch (e : WebhookEvent) (env : WebhookEnv) :
    String × List Effect :=
  if e.event = "conversation_status_changed" then
    if (e.statusValue = "pending" ∨ e.statusValue = "resolved")
        ∧ e.conversationId ≠ 0 then
      ("takeover cleared",
        [.clearHumanTakeover e.conversationId,
         .setConversationAiStatus e.conversationId "active"])
    else ("status change ignored", [])
  else if e.event = "conversation_updated" then
    conversationUpdatedBranch e env
  else if e.event ≠ "message_created" then ("event ignored", [])
  else messageCreatedBranch e env

/-- api/main.chatwoot_webhook (lines 165-448), for a successfully parsed
body: the global inbox guard first, then the event dispatch.  The result is
the response detail string and the list of state-mutating calls made. -/
def chatwoot_webhook (e : WebhookEvent) (env : WebhookEnv) :
    String × List Effect :=
  match webhookInboxGuard e.accountId e.inboxId env.validInboxes with
  | .deny =>
    if e.inboxId ≠ 0 then ("inbox mismatch, event ignored", [])
    else ("no inbox_id, event rejected", [])
  | .allow => webhookDispatch e env

-- =========================================================================
-- worker/consumer.py : _on_message (lines 615-784)
-- =========================================================================

/-- A decoded broker message, with the fields _on_message extracts (0 encodes
a missing or falsy id). -/
structure WorkerMessage where
  decodeOk : Bool
  accountId : Nat
  conversationId : Nat
  inboxId : Nat
  isGroup : Bool
  senderPhone : String  -- empty string encodes a missing phone
  content : String      -- content after extraction (audio handling aside)
deriving Repr

/-- External state the worker message handler consults. -/
structure WorkerEnv where
  orgFound : Bool
  validInboxes : List Nat
  campaignLeadMatch : Bool  -- check_phone_is_campaign_lead found a row
deriving Repr

/-- worker/consumer._on_message (lines 615-784): decode, id extraction and
checks, the inbox guard, the group guard, the campaign-lead reply update,
content check, then the buffer push and the debounce-task replacement.  The
result is the list of state-mutating calls made for this message. -/
def worker_on_message (m : WorkerMessage) (env : WorkerEnv) : List Effect :=
  if ¬ m.decodeOk then []
  else if m.accountId = 0 ∨ m.conversationId = 0 then []
  else
    match workerInboxGuard env.orgFound m.inboxId env.validInboxes with
    | .reject => []
    | .proceed =>
      if m.isGroup then []
      else
        let campEff : List Effect :=
          if m.senderPhone ≠ "" ∧ env.campaignLeadMatch then
            [.updateCampaignLead m.senderPhone]
          else []
        if m.content.trim = "" then campEff
        else campEff ++ [.bufferPush m.conversationId m.content,
                         .scheduleDebounceTask m.conversationId]

/-- An effect that hands the event onward toward AI processing: a broker
publish in the webhook layer, a buffer push or a debounce task in the
worker. -/
def isForwardEffect : Effect → Bool
  | .publishToBroker _ => true
  | .bufferPush _ _ => true
  | .scheduleDebounceTask _ => true
  | _ => false

-- =========================================================================
-- Debounce buffer machinery (worker/consumer.py lines 586-608 and 766-784,
-- services/redis_client.py lines 42-79, _process_batch lines 254-262)
-- =========================================================================

/-- worker/consumer.py line 768: the buffer TTL is max(10 * debounce, 30). -/
def bufferTtl (W : Nat) : Nat := max (10 * W) 30

/-- State of one conversation: the Redis list buffer with its expiry instant
(bufferExpiry = 0 meaning no live key), the deadline of the pending debounce
task if one is live, and the combined text of each batch fired so far (the
combined_text computed by _process_batch step 1). -/
structure DebounceState where
  buffer : List String
  bufferExpiry : Nat
  timer : Option Nat
  fired : List String
deriving DecidableEq, Repr

/-- The state before the first fragment: no buffer key, no task, no batch. -/
def initialDebounceState : DebounceState :=
  { buffer := [], bufferExpiry := 0, timer := none, fired := [] }

/-- Fire the pending debounce task if its deadline has been reached by time
now.  worker/consumer._schedule_debounce (lines 586-608): after the sleep,
check buffer_exists; if the key is live, _process_batch reads the whole list,
deletes the key and joins the fragments with a newline (lines 254-262); if
the key expired, log a warning and do nothing.  Either way the task entry is
gone afterwards. -/
def fireDue (s : DebounceState) (now : Nat) : DebounceState :=
  match s.timer with
  | none => s
  | some d =>
    if d ≤ now then
      if s.buffer ≠ [] ∧ d < s.bufferExpiry then
        { buffer := [], bufferExpiry := 0, timer := none,
          fired := s.fired ++ [combinedText s.buffer] }
      else { s with buffer := [], bufferExpiry := 0, timer := none }
    else s

/-- One inbound fragment at time t (worker/consumer._on_message lines
766-784 with redis push_to_buffer lines 42-56): any task already due before
the fragment arrives has fired; then the content is appended to the buffer,
the TTL refreshed to bufferTtl W, the existing debounce task cancelled and a
new one scheduled for t + W. -/
def pushFragment (W : Nat) (s : DebounceState) (t : Nat) (content : String) :
    DebounceState :=
  let s := fireDue s t
  { buffer := s.buffer ++ [content],
    bufferExpiry := t + bufferTtl W,
    timer := some (t + W),
    fired := s.fired }

/-- Let the pending debounce task run to its deadline, if one is live. -/
def flushTimer (s : DebounceState) : DebounceState :=
  match s.timer with
  | none => s
  | some d => fireDue s d

/-- Process the remaining fragments, each given as (gap after the previous
fragment, content), then let the last debounce task run out. -/
def runGapped (W : Nat) (s : DebounceState) (t : Nat) :
    List (Nat × String) → DebounceState
  | [] => flushTimer s
  | (g, frag) :: rest =>
    runGapped W (pushFragment W s (t + g) frag) (t + g) rest

/-- A full debounce run: the first fragment at time t0, then the remaining
fragments at the given gaps, then the final task runs out. -/
def debounceRun (W t0 : Nat) (first : String) (rest : List (Nat × String)) :
    DebounceState :=
  runGapped W (pushFragment W initialDebounceState t0 first) t0 rest

-- =========================================================================
-- worker/ai_engine.py : run_completion (lines 279-360) and
-- _execute_tool_call (lines 171-272)
-- =========================================================================

/-- The tool the engine treats as the handoff (ai_engine.py line 185). -/
def transferToolName : String := "transfer_to_human_specialist"

/-- The farewell text run_completion returns on an early transfer
(ai_engine.py line 345). -/
def transferFarewell : String :=
  "Conversa transferida para um atendente humano. Obrigado!"

/-- One completion-provider response: the assistant content plus the list of
tool-call function names, in order.  An absent tool_calls field is the empty
list (falsy in the loop condition, like Python None or []). -/
structure AssistantMessage where
  content : String
  toolCalls : List String
deriving DecidableEq, Repr

/-- Result of one run_completion turn: the tools executed in execution order,
the ctx.transferred flag, the number of completion-provider requests made,
the number of tool rounds processed, and the final text. -/
structure EngineRun where
  executed : List String
  transferred : Bool
  completionRequests : Nat
  rounds : Nat
  finalText : String
deriving DecidableEq, Repr

/-- The tool loop of run_completion (lines 315-360).  provider k is the
response the provider returns to the k-th request (requests counted from 0).
Mirrors the source: while the message has tool calls and the round count is
below the cap, execute every tool call of the response sequentially (the
handoff sets ctx.transferred, ai_engine.py lines 185-202); after the round,
if transferred, return the farewell at once; otherwise request a follow-up
completion.  fuel is the remaining round budget (cap minus rounds). -/
def engineLoop (provider : Nat → AssistantMessage) :
    Nat → AssistantMessage → Nat → Nat → List String → EngineRun
  | 0, msg, requests, rounds, executed =>
    { executed := executed, transferred := false,
      completionRequests := requests, rounds := rounds,
      finalText := msg.content }
  | fuel + 1, msg, requests, rounds, executed =>
    if msg.toolCalls = [] then
      { executed := executed, transferred := false,
        completionRequests := requests, rounds := rounds,
        finalText := msg.content }
    else
      let executed := executed ++ msg.toolCalls
      if transferToolName ∈ msg.toolCalls then
        { executed := executed, transferred := true,
          completionRequests := requests, rounds := rounds + 1,
          finalText := transferFarewell }
      else
        engineLoop provider fuel (provider requests) (requests + 1)
          (rounds + 1) executed

/-- ai_engine.run_completion (lines 279-360): one initial completion request
(response provider 0), then the tool loop with the fixed round cap of 5
(max_tool_rounds, line 316). -/
def run_completion (provider : Nat → AssistantMessage) : EngineRun :=
  engineLoop provider 5 (provider 0) 1 0 []

-- =========================================================================
-- services/transfer.py : execute_transfer (lines 44-204) and the handoff
-- tool branch of ai_engine._execute_tool_call (lines 185-226)
-- =========================================================================

/-- The platform calls of the transfer flow, in the order the source makes
them, plus the takeover-flag write and the fallback toggle of the tool
branch. -/
inductive TransferStep
  | setTakeoverFlag
  | toggleStatus
  | assignTeam
  | contactNote
  | kanbanCard
  | kanbanNote
  | privateMessage
  | kommoFlow
  | updateAtendimento
  | fallbackToggle
deriving DecidableEq, Repr

/-- Outcome of one underlying HTTP call: success, an HTTP status error, or a
transport-level error (connection failure, timeout). -/
inductive CallOutcome
  | ok
  | httpErr
  | netErr
deriving DecidableEq, Repr

/-- Result of execute_transfer: the steps attempted in order, and whether an
exception escaped the function. -/
structure TransferRun where
  attempted : List TransferStep
  raised : Bool
deriving DecidableEq, Repr

/-- services/transfer.execute_transfer (lines 44-204), with per-step call
outcomes given by the oracle.  credsOk is the Chatwoot-credential check of
lines 96-98 (early textual error on failure).  In the source, toggle_status,
assign_team, create_contact_note and send_private_message are each wrapped in
try/except at the call site (lines 103-158 and 175-198), so any exception
they raise is swallowed and the flow continues.  create_kanban_card and
create_kanban_note (chatwoot.py lines 269-327) swallow HTTP status errors
internally (returning None, so the note is skipped) but are NOT wrapped at
the call site (lines 136-148), so a transport error there escapes
execute_transfer and aborts the remaining steps.  The Kommo sub-flow and the
atendimento update swallow all their errors internally (transfer.py lines
221-284 and 289-300). -/
def execute_transfer (credsOk : Bool) (teamId : Option Nat) (funnelId : Nat)
    (kommoEnabled : Bool) (oracle : TransferStep → CallOutcome) :
    TransferRun :=
  if ¬ credsOk then { attempted := [], raised := false }
  else
    match teamId with
    | some _ =>
      let pre : List TransferStep := [.toggleStatus, .assignTeam, .contactNote]
      if funnelId ≠ 0 then
        if oracle .kanbanCard = .netErr then
          { attempted := pre ++ [.kanbanCard], raised := true }
        else if oracle .kanbanCard = .ok then
          if oracle .kanbanNote = .netErr then
            { attempted := pre ++ [.kanbanCard, .kanbanNote], raised := true }
          else
            { attempted := pre ++ [.kanbanCard, .kanbanNote, .privateMessage]
                ++ (if kommoEnabled then [.kommoFlow] else [])
                ++ [.updateAtendimento],
              raised := false }
        else
          { attempted := pre ++ [.kanbanCard, .privateMessage]
              ++ (if kommoEnabled then [.kommoFlow] else [])
              ++ [.updateAtendimento],
            raised := false }
      else
        { attempted := pre ++ [.privateMessage]
            ++ (if kommoEnabled then [.kommoFlow] else [])
            ++ [.updateAtendimento],
          raised := false }
    | none =>
      { attempted := [.toggleStatus, .privateMessage, .updateAtendimento],
        raised := false }

/-- Result of the handoff tool branch: the full trace of steps (the takeover
flag write first, then the transfer steps, then the fallback toggle if the
transfer raised), and the ctx.transferred mark. -/
structure HandoffRun where
  trace : List TransferStep
  transferredMark : Bool
deriving DecidableEq, Repr

/-- The transfer_to_human_specialist branch of ai_engine._execute_tool_call
(lines 185-226): set the long-TTL takeover flag FIRST (line 201), mark
ctx.transferred, then call execute_transfer inside try; on an escaped
exception, attempt the fallback toggle_status (its own failure swallowed) and
return a partial-transfer message.  No call in this flow deletes the takeover
flag. -/
def toolTransferToHuman (credsOk : Bool) (teamId : Option Nat)
    (funnelId : Nat) (kommoEnabled : Bool)
    (oracle : TransferStep → CallOutcome) : HandoffRun :=
  let t := execute_transfer credsOk teamId funnelId kommoEnabled oracle
  { trace := .setTakeoverFlag :: t.attempted
      ++ (if t.raised then [.fallbackToggle] else []),
    transferredMark := true }

/-- The takeover-flag state after a trace of steps, starting clear: only the
setTakeoverFlag step writes the flag, and no step in the flow deletes it. -/
def takeoverAfter (trace : List TransferStep) : Bool :=
  trace.foldl (fun b s => if s = TransferStep.setTakeoverFlag then true else b)
    false

-- =========================================================================
-- worker/consumer.py : _run_campaign_sender (lines 889-1001)
-- =========================================================================

/-- Time-indexed external state of one campaign run.  Index 0 is the instant
of the pre-loop reads; index i >= 1 is the instant of iteration i of the
while loop.  campaignStatusAt i is what get_campaign returns to a read at
instant i (none = campaign deleted); orgActiveAt i is what a fresh read of
the owning organization at instant i would report for is_active;
pendingLeadAt i is the phone of the single oldest pending lead at instant i,
if any. -/
structure SenderEnv where
  campaignStatusAt : Nat → Option String
  orgFoundPre : Bool
  orgActiveAt : Nat → Bool
  inboxConfigured : Bool
  pendingLeadAt : Nat → Option String
  sendFailsAt : Nat → Bool
deriving Inhabited

/-- Result of a campaign-sender run: the outbound sends attempted, as
(iteration index, lead phone) pairs in order. -/
structure SenderRun where
  sends : List (Nat × String)
deriving DecidableEq, Repr

/-- The while loop of _run_campaign_sender (lines 932-998): each iteration
re-reads the campaign row and stops unless its status is still active,
fetches the single oldest pending lead (stopping and marking the campaign
completed when none remains), sends the personalized template, marks the
lead sent or failed, and sleeps.  The organization is NOT re-read inside the
loop.  fuel bounds the number of iterations modelled. -/
def campaignLoop (env : SenderEnv) :
    Nat → Nat → List (Nat × String) → SenderRun
  | 0, _, acc => { sends := acc }
  | fuel + 1, i, acc =>
    match env.campaignStatusAt i with
    | none => { sends := acc }
    | some st =>
      if st ≠ "active" then { sends := acc }
      else
        match env.pendingLeadAt i with
        | none => { sends := acc }
        | some phone => campaignLoop env fuel (i + 1) (acc ++ [(i, phone)])

/-- worker/consumer._run_campaign_sender (lines 889-1001): pre-loop reads of
the campaign row and the owning organization (campaign existence, the
is_active check of lines 918-921, the inbox_id check of lines 925-930), then
the send loop.  The is_active check runs once, before the loop only. -/
def run_campaign_sender (env : SenderEnv) (fuel : Nat) : SenderRun :=
  match env.campaignStatusAt 0 with
  | none => { sends := [] }
  | some _ =>
    if ¬ env.orgFoundPre then { sends := [] }
    else if ¬ env.orgActiveAt 0 then { sends := [] }
    else if ¬ env.inboxConfigured then { sends := [] }
    else campaignLoop env fuel 1 []

-- =========================================================================
-- services/supabase_client.py : insert_lead (lines 329-362) and upsert_lead
-- (lines 365-408)
-- =========================================================================

/-- A row of the leads table.  rowId is the surrogate key the database
assigns on insert. -/
structure LeadRow where
  rowId : Nat
  organizationId : String
  name : String
  phone : String
  source : Option String
  status : String
deriving DecidableEq, Repr

/-- The leads table, in insertion order. -/
abbrev LeadsTable := List LeadRow

/-- Whether a row matches the (organization, phone) key. -/
def leadKeyMatches (orgId phone : String) (r : LeadRow) : Bool :=
  r.organizationId == orgId && r.phone == phone

/-- supabase_client.insert_lead (lines 329-362), the path the register_lead
tool uses (ai_engine.py line 251): an unconditional insert of a new row with
status new; no lookup of an existing (organization, phone) row is made. -/
def insert_lead (db : LeadsTable) (orgId name phone : String) :
    LeadsTable × LeadRow :=
  let row : LeadRow :=
    { rowId := db.length, organizationId := orgId, name := name,
      phone := phone, source := none, status := "new" }
  (db ++ [row], row)

/-- supabase_client.upsert_lead (lines 365-408), the path the worker auto-
lead creation (consumer.py line 308) and the campaign sender (line 980) use:
select the first existing row with the same (organization_id, phone); if one
exists return it unchanged (the source selects its id column) and leave the
table alone; otherwise insert a new row with status new. -/
def upsert_lead (db : LeadsTable) (orgId name phone source : String) :
    LeadsTable × LeadRow :=
  match db.find? (leadKeyMatches orgId phone) with
  | some r => (db, r)
  | none =>
    let row : LeadRow :=
      { rowId := db.length, organizationId := orgId, name := name,
        phone := phone, source := some source, status := "new" }
    (db ++ [row], row)

-- =========================================================================
-- Theorems
-- =========================================================================

-- Helper lemmas -----------------------------------------------------------

/-- Once the takeover flag is set, folding the remaining steps keeps it set:
no step of the transfer flow writes false. -/
theorem takeoverFold_true (l : List TransferStep) :
    l.foldl
      (fun b s => if s = TransferStep.setTakeoverFlag then true else b)
      true = true := by
  induction l with
  | nil => rfl
  | cons s l ih => simpa [List.foldl] using ih

/-- The webhook global inbox guard denies an event with a non-empty valid
set when the inbox id is missing or not a member. -/
theorem webhookInboxGuard_denies (a i : Nat) (v : List Nat)
    (hv : v ≠ []) (ha : a ≠ 0) (hi : i = 0 ∨ i ∉ v) :
    webhookInboxGuard a i v = .deny := by
  rcases hi with hi | hi <;> simp [webhookInboxGuard, hv, ha, hi]

/-- The worker inbox guard rejects a message with a non-empty valid set when
the inbox id is missing or not a member. -/
theorem workerInboxGuard_rejects (o : Bool) (i : Nat) (v : List Nat)
    (hv : v ≠ []) (hi : i = 0 ∨ i ∉ v) :
    workerInboxGuard o i v = .reject := by
  by_cases h0 : i = 0
  · simp [workerInboxGuard, hv, h0]
  · rcases hi with hi | hi
    · exact absurd hi h0
    · simp [workerInboxGuard, hv, h0, hi]

-- Claim C1 ----------------------------------------------------------------

/-- C1: the takeover check of _process_batch is broken in the source.  At
the failing input (a non-empty buffered batch, takeover flag set), the code
evaluates redis_svc.is_ai_paused, a name services/redis_client.py does not
define, so the batch ends in a caught AttributeError logged as CRITICAL
ERROR instead of the silent no-error drop the claim describes; the function
the module does define for this purpose is is_human_takeover. -/
theorem claim_C1_takeover_check_attr_missing :
    process_batch_entry ["Hi"] true = BatchOutcome.attrError
    ∧ "is_ai_paused" ∉ redisClientFunctions
    ∧ "is_human_takeover" ∈ redisClientFunctions := by decide

-- Claim C2 ----------------------------------------------------------------

/-- Worker message used in the C2 counterexample: a well-formed non-group
event for a tenant found in the directory. -/
def c2Msg : WorkerMessage :=
  { decodeOk := true, accountId := 10, conversationId := 3, inboxId := 5,
    isGroup := false, senderPhone := "", content := "Oi" }

/-- Worker environment used in the C2 counterexample: organization found,
empty registered inbox set. -/
def c2Env : WorkerEnv :=
  { orgFound := true, validInboxes := [], campaignLeadMatch := false }

/-- C2 (counterexample): an event whose tenant has an empty registered inbox
set is NOT allowed by the worker ingestion layer: the worker inbox guard
rejects it and the message handler produces no effect at all (no buffer
push, no debounce task), refuting the claim that every ingestion layer fails
open on an empty set. -/
theorem claim_C2_counterexample :
    workerInboxGuard true 5 [] = WorkerGuardDecision.reject
    ∧ worker_on_message c2Msg c2Env = [] := by decide

/-- C2 (amended): on an empty registered inbox set, only the webhook layer
fails open (its global guard falls through for every account and inbox id),
while the worker layer rejects the event whether or not the organization row
exists. -/
theorem claim_C2_empty_set_webhook_open_worker_closed :
    ∀ (a i j : Nat) (o : Bool),
      webhookInboxGuard a i [] = GuardDecision.allow
      ∧ workerInboxGuard o j [] = WorkerGuardDecision.reject := by
  intro a i j o
  constructor
  · simp [webhookInboxGuard]
  · simp [workerInboxGuard]

-- Claim C4 ----------------------------------------------------------------

/-- C4: for an event whose tenant has a non-empty registered inbox set and
whose inbox id is missing or not a member, both ingestion layers deny before
any side effect: the webhook handler returns its rejection response with an
empty effect list (no takeover-flag write, no durable row write, no publish)
and the worker handler performs no buffer push or any other mutation. -/
theorem claim_C4_deny_before_side_effects (e : WebhookEvent)
    (env : WebhookEnv) (m : WorkerMessage) (wenv : WorkerEnv)
    (h1 : env.validInboxes ≠ []) (h2 : e.accountId ≠ 0)
    (h3 : e.inboxId = 0 ∨ e.inboxId ∉ env.validInboxes)
    (h4 : wenv.validInboxes ≠ [])
    (h5 : m.inboxId = 0 ∨ m.inboxId ∉ wenv.validInboxes) :
    (chatwoot_webhook e env).2 = [] ∧ worker_on_message m wenv = [] := by
  constructor
  · unfold chatwoot_webhook
    rw [webhookInboxGuard_denies e.accountId e.inboxId env.validInboxes h1 h2 h3]
    by_cases h0 : e.inboxId ≠ 0 <;> simp [h0]
  · unfold worker_on_message
    by_cases hd : m.decodeOk
    · by_cases hid : m.accountId = 0 ∨ m.conversationId = 0
      · simp [hd, hid]
      · rw [workerInboxGuard_rejects wenv.orgFound m.inboxId wenv.validInboxes h4 h5]
        simp [hd, hid]
    · simp [hd]

/-- Webhook event used in the C4 witness: inbox 9, not in the valid set. -/
def c4Event : WebhookEvent :=
  { event := "message_created", messageTypeIncoming := true,
    messageTypeOutgoing := false, isPrivate := false, accountId := 1,
    conversationId := 2, inboxId := 9, content := "Oi", statusValue := "",
    labels := [], isGroup := false }

/-- Webhook environment used in the C4 witness: valid set is exactly inbox
7. -/
def c4Env : WebhookEnv :=
  { validInboxes := [7], aiResponding := false, humanTakeover := false,
    orgFound := true }

/-- Worker message used in the C4 witness: missing inbox id. -/
def c4Msg : WorkerMessage :=
  { decodeOk := true, accountId := 1, conversationId := 2, inboxId := 0,
    isGroup := false, senderPhone := "", content := "Oi" }

/-- Worker environment used in the C4 witness. -/
def c4Wenv : WorkerEnv :=
  { orgFound := true, validInboxes := [7], campaignLeadMatch := false }

/-- C4 (witness): the denial theorem applied at a concrete non-member event
and a concrete missing-inbox worker message. -/
theorem claim_C4_witness :
    (chatwoot_webhook c4Event c4Env).2 = []
    ∧ worker_on_message c4Msg c4Wenv = [] :=
  claim_C4_deny_before_side_effects c4Event c4Env c4Msg c4Wenv
    (by decide) (by decide) (by decide) (by decide) (by decide)

-- Claim C5 ----------------------------------------------------------------

/-- The debounce window is strictly below the buffer TTL, so the key is
still live when the last debounce task fires. -/
theorem lt_bufferTtl (W : Nat) (hW : 0 < W) : W < bufferTtl W := by
  unfold bufferTtl
  exact lt_max_iff.mpr (Or.inl (by omega))

/-- Invariant of the in-window run: starting right after a push (non-empty
buffer, fresh TTL, live task), when every remaining gap is below the window,
no intermediate task fires and the final task fires exactly once, producing
the newline join of all fragments. -/
theorem runGapped_fires_once (W : Nat) (hW : 0 < W) :
    ∀ (rest : List (Nat × String)) (t : Nat) (B F : List String),
      B ≠ [] → (∀ p ∈ rest, p.1 < W) →
      runGapped W
        { buffer := B, bufferExpiry := t + bufferTtl W,
          timer := some (t + W), fired := F } t rest
        = { buffer := [], bufferExpiry := 0, timer := none,
            fired := F ++ [combinedText (B ++ rest.map Prod.snd)] } := by
  intro rest
  induction rest with
  | nil =>
    intro t B F hB _
    have h1 : t + W < t + bufferTtl W := by
      have := lt_bufferTtl W hW; omega
    simp [runGapped, flushTimer, fireDue, hB, h1]
  | cons p rest ih =>
    obtain ⟨g, frag⟩ := p
    intro t B F hB hg
    have hp : g < W := hg (g, frag) (List.mem_cons_self _ rest)
    have hnotdue : ¬ (t + W ≤ t + g) := by omega
    have hrest : ∀ q ∈ rest, q.1 < W :=
      fun q hq => hg q (List.mem_cons_of_mem _ hq)
    have hB2 : B ++ [frag] ≠ [] := by simp
    have hpush : pushFragment W
        { buffer := B, bufferExpiry := t + bufferTtl W,
          timer := some (t + W), fired := F } (t + g) frag
        = { buffer := B ++ [frag], bufferExpiry := t + g + bufferTtl W,
            timer := some (t + g + W), fired := F } := by
      simp [pushFragment, fireDue, hnotdue]
    have step : runGapped W
        { buffer := B, bufferExpiry := t + bufferTtl W,
          timer := some (t + W), fired := F } t ((g, frag) :: rest)
        = runGapped W
            { buffer := B ++ [frag], bufferExpiry := t + g + bufferTtl W,
              timer := some (t + g + W), fired := F } (t + g) rest := by
      rw [runGapped, hpush]
    rw [step, ih (t + g) (B ++ [frag]) F hB2 hrest]
    simp

/-- C5: for a first fragment followed by fragments that each arrive with a
gap strictly below the debounce window, the run fires exactly one batch,
whose combined text is the newline join of all fragments in push order. -/
theorem claim_C5_one_batch_newline_join (W t0 : Nat) (first : String)
    (rest : List (Nat × String)) (hW : 0 < W)
    (hgaps : ∀ p ∈ rest, p.1 < W) :
    (debounceRun W t0 first rest).fired
      = [combinedText (first :: rest.map Prod.snd)] := by
  have hpush : pushFragment W initialDebounceState t0 first
      = { buffer := [first], bufferExpiry := t0 + bufferTtl W,
          timer := some (t0 + W), fired := [] } := by
    simp [pushFragment, fireDue, initialDebounceState]
  unfold debounceRun
  rw [hpush, runGapped_fires_once W hW rest t0 [first] [] (by simp) hgaps]
  simp

/-- C5 (witness): the spec example, two fragments 1 time unit apart with a
2-unit window, fires one batch with text Hi, newline, I need help. -/
theorem claim_C5_witness :
    (debounceRun 2 0 "Hi" [(1, "I need help")]).fired = ["Hi\nI need help"] := by
  rw [claim_C5_one_batch_newline_join 2 0 "Hi" [(1, "I need help")]
    (by decide) (by decide)]
  rfl

-- Claims C6 and C7 --------------------------------------------------------

/-- Provider used for C6: the first response carries the handoff tool call
followed by a further tool call in the same response. -/
def c6Provider : Nat → AssistantMessage :=
  fun _ => { content := "", toolCalls := [transferToolName, "register_lead"] }

/-- C6 (counterexample): with a response listing the handoff first and
register_lead second, the engine still executes register_lead after the
handoff (the round finishes before the transferred check), so it does not
halt immediately after executing the handoff tool call; it does stop
requesting completions (exactly the one initial request is made). -/
theorem claim_C6_counterexample :
    (run_completion c6Provider).executed = [transferToolName, "register_lead"]
    ∧ (run_completion c6Provider).transferred = true
    ∧ (run_completion c6Provider).completionRequests = 1 := by decide

/-- In the tool loop, whenever the requests counter is one ahead of the
round counter (as it always is), a run that ends transferred made its last
provider request before the transfer round: requests equal rounds at exit,
the handoff tool is among the executed tools, and the final text is the
transfer farewell. -/
theorem engineLoop_transfer_halts (provider : Nat → AssistantMessage) :
    ∀ (fuel r : Nat) (msg : AssistantMessage) (executed : List String),
      (engineLoop provider fuel msg (r + 1) r executed).transferred = true →
      (engineLoop provider fuel msg (r + 1) r executed).completionRequests
          = (engineLoop provider fuel msg (r + 1) r executed).rounds
      ∧ transferToolName ∈ (engineLoop provider fuel msg (r + 1) r executed).executed
      ∧ (engineLoop provider fuel msg (r + 1) r executed).finalText
          = transferFarewell := by
  intro fuel
  induction fuel with
  | zero => intro r msg executed h; simp [engineLoop] at h
  | succ n ih =>
    intro r msg executed h
    by_cases hempty : msg.toolCalls = []
    · simp [engineLoop, hempty] at h
    · by_cases htr : transferToolName ∈ msg.toolCalls
      · simp only [engineLoop, if_neg hempty, if_pos htr] at h ⊢
        refine ⟨?_, ?_, ?_⟩
        · trivial
        · exact List.mem_append_right _ htr
        · trivial
      · simp only [engineLoop, if_neg hempty, if_neg htr] at h ⊢
        exact ih (r + 1) (provider (r + 1)) (executed ++ msg.toolCalls) h

/-- C6 (amended): when a completion response fires the handoff tool, the
engine finishes executing the tool calls of that response, marks the
conversation transferred, requests no further completion (the total number
of provider requests equals the number of tool rounds, i.e. no follow-up
request after the transfer round) and returns the transfer farewell,
regardless of the remaining round budget. -/
theorem claim_C6_halt_after_transfer_round (provider : Nat → AssistantMessage)
    (h : (run_completion provider).transferred = true) :
    (run_completion provider).completionRequests = (run_completion provider).rounds
    ∧ transferToolName ∈ (run_completion provider).executed
    ∧ (run_completion provider).finalText = transferFarewell :=
  engineLoop_transfer_halts provider 5 0 (provider 0) [] h

/-- C6 (witness): the halt theorem applied to the concrete provider whose
first response fires the handoff. -/
theorem claim_C6_witness :
    (run_completion c6Provider).completionRequests
        = (run_completion c6Provider).rounds
    ∧ transferToolName ∈ (run_completion c6Provider).executed
    ∧ (run_completion c6Provider).finalText = transferFarewell :=
  claim_C6_halt_after_transfer_round c6Provider (by decide)

/-- The tool loop consumes at most its fuel: rounds and requests each grow
by at most the remaining budget. -/
theorem engineLoop_bounds (provider : Nat → AssistantMessage) :
    ∀ (fuel : Nat) (msg : AssistantMessage) (requests rounds : Nat)
      (executed : List String),
      (engineLoop provider fuel msg requests rounds executed).rounds
          ≤ rounds + fuel
      ∧ (engineLoop provider fuel msg requests rounds executed).completionRequests
          ≤ requests + fuel := by
  intro fuel
  induction fuel with
  | zero => intro msg requests rounds executed; simp [engineLoop]
  | succ n ih =>
    intro msg requests rounds executed
    by_cases hempty : msg.toolCalls = []
    · simp [engineLoop, hempty]
    · by_cases htr : transferToolName ∈ msg.toolCalls
      · simp [engineLoop, hempty, htr]
      · simp only [engineLoop, if_neg hempty, if_neg htr]
        have := ih (provider requests) (requests + 1) (rounds + 1) (executed ++ msg.toolCalls)
        omega

/-- C7: run_completion is a total function of the provider response stream
(the loop is structural recursion on the round budget, mirroring the bounded
while loop of the source) and performs at most 5 tool rounds, hence at most
6 provider requests, for one conversation turn. -/
theorem claim_C7_round_cap (provider : Nat → AssistantMessage) :
    (run_completion provider).rounds ≤ 5
    ∧ (run_completion provider).completionRequests ≤ 6 := by
  have h := engineLoop_bounds provider 5 (provider 0) 1 0 []
  simpa [run_completion] using h

-- Claim C3 ----------------------------------------------------------------

/-- Oracle for the C3 counterexample: the Kanban-card call fails with a
transport error; every other platform call succeeds. -/
def c3Oracle : TransferStep → CallOutcome :=
  fun s => if s = TransferStep.kanbanCard then .netErr else .ok

/-- C3 (counterexample): with a team and a configured funnel, a transport
failure of the Kanban-card step escapes execute_transfer (the call is not
try/caught at its call site), so the remaining steps (private internal
message, CRM flow, atendimento update) are never attempted; the takeover
flag, set first, does remain set and the fallback toggle runs.  This
refutes the claim that every downstream step is independently guarded. -/
theorem claim_C3_counterexample :
    (toolTransferToHuman true (some 5) 7 true c3Oracle).trace
      = [TransferStep.setTakeoverFlag, TransferStep.toggleStatus,
         TransferStep.assignTeam, TransferStep.contactNote,
         TransferStep.kanbanCard, TransferStep.fallbackToggle]
    ∧ TransferStep.privateMessage ∉
        (toolTransferToHuman true (some 5) 7 true c3Oracle).trace
    ∧ TransferStep.updateAtendimento ∉
        (toolTransferToHuman true (some 5) 7 true c3Oracle).trace
    ∧ takeoverAfter (toolTransferToHuman true (some 5) 7 true c3Oracle).trace
        = true := by decide

/-- C3 (amended): the takeover flag is written before every downstream
platform call, is never cleared by any failure, and ctx.transferred is
marked; as long as the two Kanban calls do not fail at the transport level,
no failure of the guarded steps (open ticket, assign team, contact note,
private message) aborts the flow: the private message and the atendimento
update are still attempted and no exception escapes. -/
theorem claim_C3_flag_first_guarded_steps (teamId : Option Nat)
    (funnelId : Nat) (kommoEnabled : Bool)
    (oracle : TransferStep → CallOutcome)
    (hcard : oracle .kanbanCard ≠ .netErr)
    (hnote : oracle .kanbanNote ≠ .netErr) :
    (toolTransferToHuman true teamId funnelId kommoEnabled oracle).trace.head?
        = some TransferStep.setTakeoverFlag
    ∧ takeoverAfter
        (toolTransferToHuman true teamId funnelId kommoEnabled oracle).trace
        = true
    ∧ (toolTransferToHuman true teamId funnelId kommoEnabled
        oracle).transferredMark = true
    ∧ TransferStep.privateMessage ∈
        (toolTransferToHuman true teamId funnelId kommoEnabled oracle).trace
    ∧ TransferStep.updateAtendimento ∈
        (toolTransferToHuman true teamId funnelId kommoEnabled oracle).trace
    ∧ (execute_transfer true teamId funnelId kommoEnabled oracle).raised
        = false := by
  rcases teamId with _ | t <;>
  by_cases hf : funnelId = 0 <;>
  cases hc : oracle .kanbanCard <;>
  cases hn : oracle .kanbanNote <;>
  cases kommoEnabled <;>
  simp_all [toolTransferToHuman, execute_transfer, takeoverAfter,
    takeoverFold_true]

/-- Oracle for the C3 witness: every platform call succeeds. -/
def c3OkOracle : TransferStep → CallOutcome := fun _ => .ok

/-- C3 (witness): the amended theorem applied to an all-success oracle with
a team and a configured funnel. -/
theorem claim_C3_witness :
    (toolTransferToHuman true (some 1) 7 true c3OkOracle).trace.head?
        = some TransferStep.setTakeoverFlag
    ∧ takeoverAfter (toolTransferToHuman true (some 1) 7 true c3OkOracle).trace
        = true
    ∧ (toolTransferToHuman true (some 1) 7 true c3OkOracle).transferredMark
        = true
    ∧ TransferStep.privateMessage ∈
        (toolTransferToHuman true (some 1) 7 true c3OkOracle).trace
    ∧ TransferStep.updateAtendimento ∈
        (toolTransferToHuman true (some 1) 7 true c3OkOracle).trace
    ∧ (execute_transfer true (some 1) 7 true c3OkOracle).raised = false :=
  claim_C3_flag_first_guarded_steps (some 1) 7 true c3OkOracle
    (by decide) (by decide)

-- Claim C8 ----------------------------------------------------------------

/-- Environment for C8: the campaign stays active and always has a pending
lead; the organization is active at the pre-loop read (instant 0) but
blocked from instant 1 on. -/
def c8Env : SenderEnv :=
  { campaignStatusAt := fun _ => some "active",
    orgFoundPre := true,
    orgActiveAt := fun i => i == 0,
    inboxConfigured := true,
    pendingLeadAt := fun _ => some "5511999990000",
    sendFailsAt := fun _ => false }

/-- C8 (counterexample): at iteration 1 the tenant is blocked (a fresh read
would return inactive), yet the sender still sends, because the organization
is only read before the loop; this refutes the claim that the tenant
blocked state is re-read every iteration. -/
theorem claim_C8_counterexample :
    (run_campaign_sender c8Env 1).sends = [(1, "5511999990000")]
    ∧ c8Env.orgActiveAt 1 = false := by decide

/-- Every send recorded by the loop comes from an iteration whose fresh
campaign read returned active and whose lead fetch returned that lead. -/
theorem campaignLoop_send_fresh_active (env : SenderEnv) :
    ∀ (fuel i0 : Nat) (acc : List (Nat × String)) (i : Nat) (phone : String),
      (i, phone) ∈ (campaignLoop env fuel i0 acc).sends →
      (i, phone) ∈ acc
      ∨ (env.campaignStatusAt i = some "active"
          ∧ env.pendingLeadAt i = some phone ∧ i0 ≤ i) := by
  intro fuel
  induction fuel with
  | zero =>
    intro i0 acc i phone h
    exact Or.inl (by simpa [campaignLoop] using h)
  | succ n ih =>
    intro i0 acc i phone h
    rw [campaignLoop] at h
    split at h
    · exact Or.inl h
    · rename_i st hst
      split at h
      · exact Or.inl h
      · rename_i hs
        split at h
        · exact Or.inl h
        · rename_i phone0 hp
          rcases ih (i0 + 1) (acc ++ [(i0, phone0)]) i phone h with hacc | hfresh
          · rcases List.mem_append.mp hacc with h1 | h2
            · exact Or.inl h1
            · simp only [List.mem_singleton, Prod.mk.injEq] at h2
              obtain ⟨hi, hph⟩ := h2
              subst hi; subst hph
              push_neg at hs
              exact Or.inr ⟨by rw [hst, hs], hp, le_refl _⟩
          · exact Or.inr ⟨hfresh.1, hfresh.2.1, by omega⟩

/-- C8 (amended): each iteration re-reads the campaign row, so every send
happens in an iteration whose fresh campaign read is still active; the
tenant blocked state, however, is consulted only by the pre-loop read
(instant 0): a send at iteration i only guarantees the tenant was active at
instant 0, not at i. -/
theorem claim_C8_fresh_campaign_stale_org (env : SenderEnv) (fuel i : Nat)
    (phone : String)
    (h : (i, phone) ∈ (run_campaign_sender env fuel).sends) :
    env.campaignStatusAt i = some "active"
    ∧ env.orgActiveAt 0 = true
    ∧ 1 ≤ i := by
  unfold run_campaign_sender at h
  split at h
  · simp at h
  · split at h
    · simp at h
    · split at h
      · simp at h
      · split at h
        · simp at h
        · rename_i hfound hact hinbox
          have hoact : env.orgActiveAt 0 = true := not_not.mp hact
          rcases campaignLoop_send_fresh_active env fuel 1 [] i phone h
            with habs | hfresh
          · simp at habs
          · exact ⟨hfresh.1, hoact, hfresh.2.2⟩

/-- C8 (witness): the amended theorem applied to the concrete environment at
the send of iteration 1. -/
theorem claim_C8_witness :
    c8Env.campaignStatusAt 1 = some "active"
    ∧ c8Env.orgActiveAt 0 = true
    ∧ 1 ≤ 1 :=
  claim_C8_fresh_campaign_stale_org c8Env 1 1 "5511999990000" (by decide)

-- Claim C9 ----------------------------------------------------------------

/-- C9 (counterexample): inserting the same (organization, phone) twice via
insert_lead, the path the register_lead tool uses, leaves two rows with that
key in the table: the tool path performs no dedup. -/
theorem claim_C9_counterexample :
    ((insert_lead (insert_lead [] "org-1" "Ana" "5511988887777").1
        "org-1" "Ana" "5511988887777").1.filter
      (leadKeyMatches "org-1" "5511988887777")).length = 2 := by decide

/-- A row satisfying the predicate appended to a table in which find? fails
is found. -/
theorem find?_append_single (db : LeadsTable) (p : LeadRow → Bool)
    (row : LeadRow) (h : db.find? p = none) (hp : p row = true) :
    (db ++ [row]).find? p = some row := by
  induction db with
  | nil => simp [List.find?, hp]
  | cons a l ih =>
    cases hpa : p a with
    | false =>
      have h2 : l.find? p = none := by
        simpa [List.find?, hpa] using h
      simpa [List.find?, hpa] using ih h2
    | true =>
      have hx : (a :: l).find? p = some a := by simp [List.find?, hpa]
      rw [hx] at h
      cases h

/-- C9 (amended): the upsert_lead path, used by the worker auto-lead
creation and the campaign sender, is idempotent on (organization, phone):
calling it again with the same key changes nothing and returns the very row
of the first call; the register_lead tool, by contrast, calls the plain
insert_lead, which duplicates (counterexample above). -/
theorem claim_C9_upsert_idempotent (db : LeadsTable)
    (orgId name phone source name2 source2 : String) :
    upsert_lead (upsert_lead db orgId name phone source).1 orgId name2 phone
        source2
      = ((upsert_lead db orgId name phone source).1,
         (upsert_lead db orgId name phone source).2) := by
  rcases hfind : db.find? (leadKeyMatches orgId phone) with _ | r
  · have hrowkey : leadKeyMatches orgId phone
        { rowId := db.length, organizationId := orgId, name := name,
          phone := phone, source := some source, status := "new" } = true := by
      simp [leadKeyMatches]
    have h2 := find?_append_single db (leadKeyMatches orgId phone) _ hfind
      hrowkey
    simp [upsert_lead, hfind, h2]
  · simp [upsert_lead, hfind]

-- Claim C10 ---------------------------------------------------------------

/-- C10: a group-chat inbound message is never handed onward in either
layer: whatever the webhook handler does with it (including the guard and
the slash-command branches that run first), it emits no broker publish and
no buffer effect, and the worker handler performs no effect at all for a
group message. -/
theorem claim_C10_group_never_processed (e : WebhookEvent) (env : WebhookEnv)
    (m : WorkerMessage) (wenv : WorkerEnv)
    (he : e.event = "message_created")
    (hin : e.messageTypeIncoming = true)
    (hout : e.messageTypeOutgoing = false)
    (hg : e.isGroup = true)
    (hmg : m.isGroup = true) :
    (∀ ef ∈ (chatwoot_webhook e env).2, isForwardEffect ef = false)
    ∧ worker_on_message m wenv = [] := by
  constructor
  · intro ef hef
    unfold chatwoot_webhook at hef
    rcases hgd : webhookInboxGuard e.accountId e.inboxId env.validInboxes
      with _ | _
    · rw [hgd] at hef
      by_cases hauto : e.content.trim.toLower = "/auto" ∧ e.conversationId ≠ 0
      · by_cases hnote : e.accountId ≠ 0 ∧ env.orgFound
        · simp [webhookDispatch, he, messageCreatedBranch, hout, hin, hg,
            hauto, hnote] at hef
          rcases hef with rfl | rfl | rfl <;> rfl
        · simp [webhookDispatch, he, messageCreatedBranch, hout, hin, hg,
            hauto, hnote] at hef
          rcases hef with rfl | rfl <;> rfl
      · simp [webhookDispatch, he, messageCreatedBranch, hout, hin, hg,
          hauto] at hef
    · rw [hgd] at hef
      by_cases h0 : e.inboxId ≠ 0 <;> simp [h0] at hef
  · unfold worker_on_message
    by_cases hd : m.decodeOk
    · by_cases hids : m.accountId = 0 ∨ m.conversationId = 0
      · simp [hd, hids]
      · rcases hgd : workerInboxGuard wenv.orgFound m.inboxId
          wenv.validInboxes with _ | _
        · simp [hd, hids, hgd, hmg]
        · simp [hd, hids, hgd]
    · simp [hd]

/-- Webhook event for the C10 witness: an incoming group-chat message on a
valid inbox. -/
def c10Event : WebhookEvent :=
  { event := "message_created", messageTypeIncoming := true,
    messageTypeOutgoing := false, isPrivate := false, accountId := 1,
    conversationId := 2, inboxId := 3, content := "Oi", statusValue := "",
    labels := [], isGroup := true }

/-- Webhook environment for the C10 witness. -/
def c10Env : WebhookEnv :=
  { validInboxes := [3], aiResponding := false, humanTakeover := false,
    orgFound := true }

/-- Worker message for the C10 witness: a group conversation. -/
def c10Msg : WorkerMessage :=
  { decodeOk := true, accountId := 1, conversationId := 2, inboxId := 3,
    isGroup := true, senderPhone := "", content := "Oi" }

/-- Worker environment for the C10 witness. -/
def c10Wenv : WorkerEnv :=
  { orgFound := true, validInboxes := [3], campaignLeadMatch := false }

/-- C10 (witness): the group-guard theorem applied at a concrete group
message in both layers. -/
theorem claim_C10_witness :
    (∀ ef ∈ (chatwoot_webhook c10Event c10Env).2, isForwardEffect ef = false)
    ∧ worker_on_message c10Msg c10Wenv = [] :=
  claim_C10_group_never_processed c10Event c10Env c10Msg c10Wenv
    rfl rfl rfl rfl rfl
